import Mathlib

/-
Verification of the hostinfo snapshot script (src/hostinfo.py) against its
natural-language specification.  The Python source is shallowly embedded:
every function of the script becomes a Lean definition over an explicit
host-state record; Python exceptions become `Except PyErr`; Python dicts
become insertion-ordered association lists; float payloads that no claim
computes with (load averages, GPU metrics, timestamps) are carried as `Int`
tokens.  Definitions mirror the source, including its bugs (the list/dict
confusion in `gather_rpm_packages` and the indentation slip in
`gather_dpkg_packages`).
-/

set_option maxRecDepth 4000

namespace Hostinfo

/-- Python exception kinds that the script can raise or catch. -/
inductive PyErr where
  | typeError
  | valueError
  | indexError
  | nameError
  | osError
  | calledProcessError
deriving DecidableEq

/-- Exceptions caught by the per-process handler in `gather_system_info`. -/
inductive ProcErr where
  | noSuchProcess
  | accessDenied
  | zombieProcess
deriving DecidableEq

/-- A value stored in one of the script's heterogeneous dicts.  Numeric
payloads the claims never compute with are carried as `Int`. -/
inductive PyVal where
  | vStr : String → PyVal
  | vInt : Int → PyVal
  | vBool : Bool → PyVal
  | vNone : PyVal
deriving DecidableEq

/-- An `_asdict()` payload: an insertion-ordered string-keyed dict. -/
abbrev AsDict := List (String × PyVal)

/-- A string-to-string dict as built by the sysctl parsers. -/
abbrev AssocS := List (String × String)

/-- Python `str` whitespace as used by `str.strip()` and `str.split()`. -/
def pyIsSpace (c : Char) : Bool :=
  c == ' ' || c == '\t' || c == '\n' || c == '\r' || c == '\x0b' || c == '\x0c'

/-- Python `str.strip()`: drop leading and trailing whitespace. -/
def pyStrip (s : String) : String :=
  ⟨(((s.toList).dropWhile pyIsSpace).reverse.dropWhile pyIsSpace).reverse⟩

/-- Split a character list at every character satisfying `p`, keeping empty
chunks — the semantics of Python `str.split(sep)` for a one-character
separator (with `p` matching exactly that separator). -/
def splitP (p : Char → Bool) : List Char → List (List Char)
  | [] => [[]]
  | a :: as =>
    match splitP p as with
    | [] => [[]]
    | g :: gs => if p a then [] :: g :: gs else (a :: g) :: gs

/-- Python `s.split(c)` for a single-character separator `c`. -/
def pySplit (c : Char) (s : String) : List String :=
  (splitP (fun d => d == c) s.toList).map (fun l => (⟨l⟩ : String))

/-- Python `s.split()` (no argument): split on whitespace runs, no empties. -/
def pyWords (s : String) : List String :=
  ((splitP pyIsSpace s.toList).filter (fun l => !l.isEmpty)).map
    (fun l => (⟨l⟩ : String))

/-- Bool test that `pre` is a prefix of `s` (Python `str.startswith`). -/
def isPrefixB : List Char → List Char → Bool
  | [], _ => true
  | _ :: _, [] => false
  | a :: as, b :: bs => a == b && isPrefixB as bs

/-- Python `s.startswith(pre)`. -/
def pyStartsWith (pre s : String) : Bool :=
  isPrefixB pre.toList s.toList

/-- Bool substring test, used for Python `needle in haystack` on strings. -/
def isInfixB (n : List Char) : List Char → Bool
  | [] => n.isEmpty
  | b :: bs => isPrefixB n (b :: bs) || isInfixB n bs

/-- Python `needle in haystack` for strings. -/
def strContains (hay needle : String) : Bool :=
  isInfixB needle.toList hay.toList

/-- ASCII approximation of Python `str.lower()` (the distro names matched
against are ASCII). -/
def pyLower (s : String) : String :=
  s.map Char.toLower

/-- Python `c in s` for a single character `c`. -/
def pyContainsChar (s : String) (c : Char) : Bool :=
  s.toList.any (fun d => d == c)

/-- Python `line.split(sep, 1)` for a one-character separator, in the case
where the separator occurs: the part before the first occurrence and the
part after it. -/
def pySplitOnceAt (c : Char) (line : String) : String × String :=
  (⟨line.toList.takeWhile (fun d => !(d == c))⟩,
   ⟨(line.toList.dropWhile (fun d => !(d == c))).tail⟩)

/-- Python `d[k] = v` on an insertion-ordered dict: overwrite in place when
the key exists, append otherwise. -/
def pyDictSet (m : AssocS) (k v : String) : AssocS :=
  if m.any (fun p => p.1 == k) then
    m.map (fun p => if p.1 = k then (p.1, v) else p)
  else
    m ++ [(k, v)]

/-- Loop body of `read_sysctl_conf` for one raw line: strip, skip blank and
comment lines, skip lines with no `=`, otherwise split at the first `=` and
store the stripped key and value. -/
def sysctlLineStep (m : AssocS) (rawLine : String) : AssocS :=
  let line := pyStrip rawLine
  if !(line == "") && !(pyStartsWith ("#") line) then
    if pyContainsChar line '=' then
      let kv := pySplitOnceAt '=' line
      pyDictSet m (pyStrip kv.1) (pyStrip kv.2)
    else m
  else m

/-- `read_sysctl_conf`: `none` models a missing file (`os.path.exists`
false); otherwise the file contents are parsed line by line.  File-line
iteration is modelled as splitting on newline; the only difference is a
trailing empty string, which the blank-line guard skips. -/
def read_sysctl_conf (file : Option String) : AssocS :=
  match file with
  | none => []
  | some content => (pySplit '\n' content).foldl sysctlLineStep []

/-- Loop body of `get_current_sysctl_values` for one line of `sysctl -a`
output: strip, skip blank lines and lines with no `=`, otherwise split at
the first `=` and store the stripped key and value.  (Unlike
`read_sysctl_conf` there is no comment check in the source.) -/
def sysctlValStep (m : AssocS) (rawLine : String) : AssocS :=
  let line := pyStrip rawLine
  if !(line == "") then
    if pyContainsChar line '=' then
      let kv := pySplitOnceAt '=' line
      pyDictSet m (pyStrip kv.1) (pyStrip kv.2)
    else m
  else m

/-- `get_current_sysctl_values`: the `subprocess.run(['sysctl','-a'])`
invocation is modelled by its outcome — an uncaught exception (e.g. the
binary is missing) or an exit code with captured stdout.  A non-zero exit
yields the empty dict. -/
def get_current_sysctl_values (run : Except PyErr (Int × String)) :
    Except PyErr AssocS :=
  match run with
  | .error e => .error e
  | .ok (rc, out) =>
    if rc = 0 then .ok ((pySplit '\n' out).foldl sysctlValStep [])
    else .ok []

/-- One Debian package record, with the dict keys the source uses. -/
structure DpkgRec where
  Package : String
  Version : String
  Architecture : String
deriving DecidableEq

/-- Loop of `gather_dpkg_packages` over the split stdout.  The source's
record construction is (by an indentation slip) outside the `if line:`
guard, so it also runs for blank lines, reusing the previous line's
`fields`; with no previous line `fields` is unbound (NameError), and a line
with fewer than three fields raises IndexError (`fields[2]`).  These
exceptions are not caught by the `except subprocess.CalledProcessError`
handler. -/
def dpkgStep (fieldsOpt : Option (List String)) (acc : List DpkgRec) :
    List String → Except PyErr (List DpkgRec)
  | [] => .ok acc
  | line :: rest =>
    let fieldsOpt' :=
      if line == "" then fieldsOpt else some (pyWords (pyStrip line))
    match fieldsOpt' with
    | none => .error .nameError
    | some fs =>
      match fs with
      | f0 :: f1 :: f2 :: _ =>
        dpkgStep (some fs) (acc ++ [⟨f0, f1, f2⟩]) rest
      | _ => .error .indexError

/-- `gather_dpkg_packages`, as a function of the `dpkg-query` exit code and
stdout.  `check=True` turns a non-zero exit into `CalledProcessError`,
which is caught and leaves the (still empty) list to be returned. -/
def gather_dpkg_packages (rc : Int) (out : String) :
    Except PyErr (List DpkgRec) :=
  if rc = 0 then dpkgStep none [] (pySplit '\n' out) else .ok []

/-- Loop of `gather_rpm_packages` over the split stdout.  `rpm_packages` is
initialised as a *list*, but the loop executes `rpm_packages[name] =
version` — indexing a list with a string — so the first non-empty line
raises TypeError (or ValueError first, when the line has no space and the
two-variable unpacking of `line.split(' ', 1)` fails).  Neither is caught. -/
def rpmStep : List String → Except PyErr (List (String × String))
  | [] => .ok []
  | line :: rest =>
    if line == "" then rpmStep rest
    else if pyContainsChar line ' ' then .error .typeError
    else .error .valueError

/-- `gather_rpm_packages`, as a function of the `rpm -qa` exit code and
stdout.  A non-zero exit raises `CalledProcessError` (`check=True`), which
is caught, so the empty list is returned. -/
def gather_rpm_packages (rc : Int) (out : String) :
    Except PyErr (List (String × String)) :=
  if rc = 0 then rpmStep (pySplit '\n' out) else .ok []

/-- Filesystem facts probed by `check_linux_pkg_type`, plus the sysctl
config file read by `read_sysctl_conf` (`none` = file absent). -/
structure FsState where
  usr_bin_rpm : Bool
  bin_rpm : Bool
  usr_bin_dpkg : Bool
  bin_dpkg : Bool
  os_release : Option String
  sysctlConf : Option String

/-- The os-release branch of `check_linux_pkg_type`: substring probes of
the lower-cased file contents; both a missing file and contents matching
no known distro name fall through to the source's final
`return 'Unknown'`. -/
def osReleaseFamily : Option String → String
  | some content =>
    let s := pyLower content
    if strContains s ("debian") || strContains s ("ubuntu") then "debian"
    else if strContains s ("centos") || strContains s ("fedora")
          || strContains s ("rhel") then "rpm"
    else "Unknown"
  | none => "Unknown"

/-- `check_linux_pkg_type`: probe for the rpm binary, then the dpkg binary,
then distro-name substrings in `/etc/os-release` (lower-cased), falling
through to the literal `"Unknown"`. -/
def check_linux_pkg_type (fs : FsState) : String :=
  if fs.usr_bin_rpm || fs.bin_rpm then "rpm"
  else if fs.usr_bin_dpkg || fs.bin_dpkg then "debian"
  else osReleaseFamily fs.os_release

/-- A raw `psutil` connection.  `psutil` reports `raddr` as either the
empty tuple or a 2-tuple `addr(ip, port)`; this is modelled as an `Option`,
so the source's `len(raddr) > 0` is `isSome` and `len(raddr) > 1` is also
`isSome`.  `laddr` is the `(ip, port)` pair the source indexes at 0 and 1. -/
structure RawConn where
  fd : Int
  family : Int
  sockType : Int
  laddr : String × Int
  raddr : Option (String × Int)
  status : String
  pid : Option Int
deriving DecidableEq

/-- The normalized connection record built by `get_net_if_connections`:
`laddr`/`raddr` are popped and replaced by the four split fields. -/
structure ConnRec where
  fd : Int
  family : Int
  sockType : Int
  status : String
  pid : Option Int
  local_ip : String
  local_port : Int
  remote_ip : Option String
  remote_port : Option Int
deriving DecidableEq

/-- Loop body of `get_net_if_connections` for one raw connection. -/
def connStep (c : RawConn) : ConnRec :=
  { fd := c.fd, family := c.family, sockType := c.sockType,
    status := c.status, pid := c.pid,
    local_ip := c.laddr.1, local_port := c.laddr.2,
    remote_ip := match c.raddr with | some r => some r.1 | none => none,
    remote_port := match c.raddr with | some r => some r.2 | none => none }

/-- `get_net_if_connections`: `psutil.net_connections()` is modelled by its
outcome (it can raise, e.g. AccessDenied on some platforms, uncaught);
each raw connection is normalized and appended. -/
def get_net_if_connections (conns : Except PyErr (List RawConn)) :
    Except PyErr (List ConnRec) :=
  match conns with
  | .error e => .error e
  | .ok cs => .ok (cs.foldl (fun acc c => acc ++ [connStep c]) [])

/-- One fully-read process record, with the fields requested from
`psutil.process_iter`.  The source's namedtuple-to-dict conversions
(`cpu_times`, `memory_info`, `io_counters`) are identities here because the
payloads are already modelled as dicts; `psutil` reports `None` for
sub-metrics it cannot read, hence the `Option`s the source tests. -/
structure ProcInfo where
  pid : Int
  name : String
  username : String
  status : String
  cpu_percent : Int
  cpu_times : Option AsDict
  memory_info : Option AsDict
  io_counters : Option AsDict
  num_threads : Int
  create_time : Int
  exe : Option String
  cmdline : List String
deriving DecidableEq

/-- The per-process loop of `gather_system_info`: reading a process either
yields its record (appended) or raises NoSuchProcess / AccessDenied /
ZombieProcess, which the `except` clause turns into skipping the process. -/
def procFold (procs : List (Except ProcErr ProcInfo)) : List ProcInfo :=
  procs.foldl
    (fun acc r => match r with | .ok i => acc ++ [i] | .error _ => acc) []

/-- Load-average dict built by `get_load_avg` (source keys `'1_min_load'`,
`'5_min_load'`, `'15_min_load'`; float values carried as `Int` tokens). -/
structure LoadAvgD where
  one_min_load : Int
  five_min_load : Int
  fifteen_min_load : Int
deriving DecidableEq

/-- The cpu-details dict built by `get_cpu_info`: `.get` lookups with the
`'N/A'` default, the two `psutil.cpu_count` results, and the load dict. -/
structure CpuDetails where
  brand : PyVal
  arch : PyVal
  bits : PyVal
  count : Option Int
  physical_count : Option Int
  model : PyVal
  family : PyVal
  stepping : PyVal
  hz_advertised : PyVal
  hz_actual : PyVal
  l2_cache_size : PyVal
  l3_cache_size : PyVal
  vendor_id : PyVal
  load_avg : LoadAvgD
deriving DecidableEq

/-- `dict.get(k, default)`. -/
def dget (d : AsDict) (k : String) (dflt : PyVal) : PyVal :=
  match d.lookup k with
  | some v => v
  | none => dflt

/-- A mounted-partition record (`psutil.disk_partitions` element). -/
structure PartEntry where
  device : String
  mountpoint : String
  fstype : String
  opts : String
deriving DecidableEq

/-- A per-mount usage record: the usage `_asdict()` plus the `mountpoint`
key the source adds into the same dict (kept as a separate field because
the value is a string among integer counters). -/
structure DiskUsageRec where
  usage : AsDict
  mountpoint : String
deriving DecidableEq

/-- A stats `_asdict()` with the `name` key the source adds into the dict
(separate field, same reason as `DiskUsageRec.mountpoint`). -/
structure NamedDict where
  stats : AsDict
  name : String
deriving DecidableEq

/-- A raw GPU as reported by `GPUtil.getGPUs()`; numeric float fields are
carried as `Int` tokens (no claim computes with them). -/
structure GpuRaw where
  id : Int
  name : String
  driver : String
  memoryTotal : Int
  memoryFree : Int
  memoryUsed : Int
  temperature : Int
  load : Int
  uuid : String
deriving DecidableEq

/-- The per-GPU info dict built by `get_gpu_info` (formatted strings). -/
structure GpuInfo where
  id : Int
  name : String
  driver_version : String
  total_memory : String
  free_memory : String
  used_memory : String
  temperature : String
  load : String
  uuid : String
deriving DecidableEq

/-- `get_gpu_info`: the `GPUtil.getGPUs()` call is modelled by its outcome
(uncaught on failure); each GPU is formatted and appended.  The source's
temperature suffix contains the mojibake `Â°C` verbatim. -/
def get_gpu_info (gl : Except PyErr (List GpuRaw)) :
    Except PyErr (List GpuInfo) :=
  match gl with
  | .error e => .error e
  | .ok gs =>
    .ok (gs.foldl
      (fun acc g => acc ++
        [{ id := g.id, name := g.name, driver_version := g.driver,
           total_memory := toString g.memoryTotal ++ (" MB"),
           free_memory := toString g.memoryFree ++ (" MB"),
           used_memory := toString g.memoryUsed ++ (" MB"),
           temperature := toString g.temperature ++ (" Â°C"),
           load := toString (g.load * 100) ++ (" %"),
           uuid := g.uuid }]) [])

/-- A `pwd.getpwall()` entry. -/
structure PwEntry where
  pw_name : String
  pw_uid : Int
  pw_gid : Int
  pw_dir : String
  pw_shell : String
  pw_gecos : String
deriving DecidableEq

/-- The per-user dict built by `get_users_info`. -/
structure UserInfo where
  username : String
  user_id : Int
  group_id : Int
  home_directory : String
  shell : String
  gecos : String
deriving DecidableEq

/-- `get_users_info`: renames the `pwd` fields into the output keys. -/
def get_users_info (pws : List PwEntry) : List UserInfo :=
  pws.foldl
    (fun acc u => acc ++
      [{ username := u.pw_name, user_id := u.pw_uid, group_id := u.pw_gid,
         home_directory := u.pw_dir, shell := u.pw_shell,
         gecos := u.pw_gecos }]) []

/-- A `grp.getgrall()` entry. -/
structure GrEntry where
  gr_name : String
  gr_gid : Int
  gr_mem : List String
deriving DecidableEq

/-- The per-group dict built by `get_groups_info`. -/
structure GroupInfo where
  groupname : String
  group_id : Int
  members : List String
deriving DecidableEq

/-- `get_groups_info`. -/
def get_groups_info (grs : List GrEntry) : List GroupInfo :=
  grs.foldl
    (fun acc g => acc ++
      [{ groupname := g.gr_name, group_id := g.gr_gid,
         members := g.gr_mem }]) []

/-- The platform-identity dict built by `gather_platform_info` — a pure
copy of the `platform` module's reported strings. -/
structure PlatformInfo where
  system : String
  node : String
  release : String
  version : String
  machine : String
  processor : String
  architecture : String × String
  platform : String
  uname : AsDict
  python_version : String
  python_build : String × String
  python_compiler : String
deriving DecidableEq

/-- `gather_platform_info`: builds the dict field by field from the
library-reported identity values. -/
def gather_platform_info (p : PlatformInfo) : PlatformInfo :=
  { system := p.system, node := p.node, release := p.release,
    version := p.version, machine := p.machine, processor := p.processor,
    architecture := p.architecture, platform := p.platform,
    uname := p.uname, python_version := p.python_version,
    python_build := p.python_build, python_compiler := p.python_compiler }

/-- A `pkg_resources` distribution. -/
structure PyDist where
  project_name : String
  version : String
  location : String
  requires : List String
deriving DecidableEq

/-- The per-distribution dict built by `gather_installed_python_packages`. -/
structure PyPkg where
  name : String
  version : String
  location : String
  requires : List String
deriving DecidableEq

/-- `gather_installed_python_packages`: iterates the working set. -/
def gather_installed_python_packages (ws : List PyDist) : List PyPkg :=
  ws.foldl
    (fun acc d => acc ++
      [{ name := d.project_name, version := d.version,
         location := d.location, requires := d.requires }]) []

/-- One fixed host state: every OS query the script performs, modelled by
its outcome.  Queries the source leaves unguarded are `Except`-valued so
that a raised exception can propagate; queries modelled as unfailing in
this embedding (module-attribute reads and the `pwd`/`grp`/`platform`
enumerations) are plain values. -/
structure HostState where
  fs : FsState
  dpkgRc : Int
  dpkgOut : String
  rpmRc : Int
  rpmOut : String
  sysctlRun : Except PyErr (Int × String)
  pyDists : List PyDist
  plat : PlatformInfo
  cpuinfoD : Except PyErr AsDict
  cpuCountLog : Option Int
  cpuCountPhys : Option Int
  psLoadavg : Except PyErr (Int × Int × Int)
  gpus : Except PyErr (List GpuRaw)
  vmem : Except PyErr AsDict
  swap : Except PyErr AsDict
  partitions : Except PyErr (List PartEntry)
  diskUsageOf : String → Except PyErr AsDict
  diskIo : Except PyErr (List (String × AsDict))
  netIo : Except PyErr (List (String × AsDict))
  netAddrs : Except PyErr (List (String × List AsDict))
  netStats : Except PyErr (List (String × AsDict))
  connections : Except PyErr (List RawConn)
  psUsers : List AsDict
  bootTime : Int
  osHasGetloadavg : Bool
  osLoadavg : Except PyErr (Int × Int × Int)
  procs : List (Except ProcErr ProcInfo)
  pwAll : List PwEntry
  grAll : List GrEntry

/-- `get_load_avg`: `psutil.getloadavg()` is unguarded, so its failure
propagates; on success the three values are repackaged into a dict. -/
def get_load_avg (st : HostState) : Except PyErr LoadAvgD :=
  match st.psLoadavg with
  | .error e => .error e
  | .ok (a, b, c) =>
    .ok { one_min_load := a, five_min_load := b, fifteen_min_load := c }

/-- `get_cpu_info`: `cpuinfo.get_cpu_info()` first (unguarded), then the
details dict whose `.get` lookups default to the string `'N/A'` and whose
`load_avg` entry calls `get_load_avg` (so either failure propagates). -/
def get_cpu_info (st : HostState) : Except PyErr CpuDetails :=
  match st.cpuinfoD with
  | .error e => .error e
  | .ok ci =>
    match get_load_avg st with
    | .error e => .error e
    | .ok lv =>
      .ok { brand := dget ci ("brand_raw") (.vStr ("N/A")),
            arch := dget ci ("arch") (.vStr ("N/A")),
            bits := dget ci ("bits") (.vStr ("N/A")),
            count := st.cpuCountLog,
            physical_count := st.cpuCountPhys,
            model := dget ci ("model") (.vStr ("N/A")),
            family := dget ci ("family") (.vStr ("N/A")),
            stepping := dget ci ("stepping") (.vStr ("N/A")),
            hz_advertised := dget ci ("hz_advertised_friendly") (.vStr ("N/A")),
            hz_actual := dget ci ("hz_actual_friendly") (.vStr ("N/A")),
            l2_cache_size := dget ci ("l2_cache_size") (.vStr ("N/A")),
            l3_cache_size := dget ci ("l3_cache_size") (.vStr ("N/A")),
            vendor_id := dget ci ("vendor_id_raw") (.vStr ("N/A")),
            load_avg := lv }

/-- `gather_disk_usage_info`: both the partition enumeration and each
per-mount `disk_usage` read are wrapped in `try`, so a failing enumeration
yields the empty list and a failing mount is skipped while the others are
kept (the mountpoint is written into the usage dict). -/
def gather_disk_usage_info (st : HostState) : List DiskUsageRec :=
  match st.partitions with
  | .error _ => []
  | .ok parts =>
    parts.foldl
      (fun acc p =>
        match st.diskUsageOf p.mountpoint with
        | .ok u => acc ++ [{ usage := u, mountpoint := p.mountpoint }]
        | .error _ => acc) []

/-- `get_disk_io_counters`: unguarded per-disk counters, each tagged with
its device name. -/
def get_disk_io_counters (d : Except PyErr (List (String × AsDict))) :
    Except PyErr (List NamedDict) :=
  match d with
  | .error e => .error e
  | .ok m => .ok (m.foldl (fun acc p => acc ++ [{ stats := p.2, name := p.1 }]) [])

/-- `get_net_io_counters`: unguarded per-interface counters, tagged. -/
def get_net_io_counters (d : Except PyErr (List (String × AsDict))) :
    Except PyErr (List NamedDict) :=
  match d with
  | .error e => .error e
  | .ok m => .ok (m.foldl (fun acc p => acc ++ [{ stats := p.2, name := p.1 }]) [])

/-- `get_net_if_addrs`: flattens the per-interface address lists, tagging
each address record with its interface name. -/
def get_net_if_addrs (d : Except PyErr (List (String × List AsDict))) :
    Except PyErr (List NamedDict) :=
  match d with
  | .error e => .error e
  | .ok m =>
    .ok (m.foldl
      (fun acc p =>
        p.2.foldl (fun acc2 ad => acc2 ++ [{ stats := ad, name := p.1 }]) acc) [])

/-- `get_net_if_stats`: unguarded per-interface link stats, tagged. -/
def get_net_if_stats (d : Except PyErr (List (String × AsDict))) :
    Except PyErr (List NamedDict) :=
  match d with
  | .error e => .error e
  | .ok m => .ok (m.foldl (fun acc p => acc ++ [{ stats := p.2, name := p.1 }]) [])

/-- The memory sub-dict of `system_info`. -/
structure MemInfo where
  virtual_memory : AsDict
  swap_memory : AsDict
deriving DecidableEq

/-- The disk sub-dict of `system_info`. -/
structure DiskInfo where
  disk_partitions : List PartEntry
  disk_usage : List DiskUsageRec
  disk_io_counters : List NamedDict
deriving DecidableEq

/-- The network sub-dict of `system_info`. -/
structure NetworkInfo where
  net_io_counters : List NamedDict
  net_if_addrs : List NamedDict
  net_if_stats : List NamedDict
  net_connections : List ConnRec
deriving DecidableEq

/-- The `system_info` dict. -/
structure SystemInfo where
  cpu : CpuDetails
  gpu : List GpuInfo
  memory : MemInfo
  disk : DiskInfo
  network : NetworkInfo
  users : List AsDict
  boot_time : Int
  load_avg : Option (Int × Int × Int)
  processes : List ProcInfo

/-- `gather_system_info`: the dict literal evaluates its entries in source
order, so the first unguarded query to raise propagates out; the
per-process loop afterwards appends only fully-read processes. -/
def gather_system_info (st : HostState) : Except PyErr SystemInfo :=
  match get_cpu_info st with
  | .error e => .error e
  | .ok cpu =>
  match get_gpu_info st.gpus with
  | .error e => .error e
  | .ok gpu =>
  match st.vmem with
  | .error e => .error e
  | .ok vm =>
  match st.swap with
  | .error e => .error e
  | .ok sm =>
  match st.partitions with
  | .error e => .error e
  | .ok parts =>
  match get_disk_io_counters st.diskIo with
  | .error e => .error e
  | .ok dio =>
  match get_net_io_counters st.netIo with
  | .error e => .error e
  | .ok nio =>
  match get_net_if_addrs st.netAddrs with
  | .error e => .error e
  | .ok naddr =>
  match get_net_if_stats st.netStats with
  | .error e => .error e
  | .ok nstat =>
  match get_net_if_connections st.connections with
  | .error e => .error e
  | .ok nconn =>
  match (if st.osHasGetloadavg then
           match st.osLoadavg with
           | .error e => Except.error e
           | .ok t => Except.ok (some t)
         else Except.ok none) with
  | .error e => .error e
  | .ok la =>
    .ok { cpu := cpu, gpu := gpu,
          memory := { virtual_memory := vm, swap_memory := sm },
          disk := { disk_partitions := parts,
                    disk_usage := gather_disk_usage_info st,
                    disk_io_counters := dio },
          network := { net_io_counters := nio, net_if_addrs := naddr,
                       net_if_stats := nstat, net_connections := nconn },
          users := st.psUsers, boot_time := st.bootTime, load_avg := la,
          processes := procFold st.procs }

/-- The OS package list stored under `system_packages` — the Debian record
list or the (always-empty-or-raising) rpm result. -/
inductive PkgList where
  | debianPkgs : List DpkgRec → PkgList
  | rpmPkgs : List (String × String) → PkgList
deriving DecidableEq

/-- The top-level `master` dict.  `system_packages` is `Option` because the
source inserts that key only inside the `if`/`elif` on the detected
package type; all other keys are inserted unconditionally. -/
structure Snapshot where
  system_packages : Option PkgList
  python_packages : List PyPkg
  platform_info : PlatformInfo
  system_info : SystemInfo
  sysctl_conf : AssocS
  current_sysctl : AssocS
  users : List UserInfo
  groups : List GroupInfo

/-- The top-level assembly: the module-level statements of the script that
build `master`, in source order.  Nothing wraps the collector calls, so
the first exception any of them raises propagates and no dict is produced. -/
def master (st : HostState) : Except PyErr Snapshot :=
  match (if check_linux_pkg_type st.fs = "debian" then
           match gather_dpkg_packages st.dpkgRc st.dpkgOut with
           | .error e => Except.error e
           | .ok l => Except.ok (some (PkgList.debianPkgs l))
         else if check_linux_pkg_type st.fs = "rpm" then
           match gather_rpm_packages st.rpmRc st.rpmOut with
           | .error e => Except.error e
           | .ok l => Except.ok (some (PkgList.rpmPkgs l))
         else Except.ok none) with
  | .error e => .error e
  | .ok sys_pkgs =>
  match gather_system_info st with
  | .error e => .error e
  | .ok sysinfo =>
  match get_current_sysctl_values st.sysctlRun with
  | .error e => .error e
  | .ok cur =>
    .ok { system_packages := sys_pkgs,
          python_packages := gather_installed_python_packages st.pyDists,
          platform_info := gather_platform_info st.plat,
          system_info := sysinfo,
          sysctl_conf := read_sysctl_conf st.fs.sysctlConf,
          current_sysctl := cur,
          users := get_users_info st.pwAll,
          groups := get_groups_info st.grAll }

/-- The key list of the assembled `master` dict in insertion order:
`system_packages` first when present, then the unconditional keys. -/
def snapshotKeys (s : Snapshot) : List String :=
  (match s.system_packages with
   | some _ => ["system_packages"]
   | none => []) ++
  ["python_packages", "platform_info", "system_info", "sysctl_conf",
   "current_sysctl", "users", "groups"]

/-- The unconditional top-level keys. -/
def baseKeys : List String :=
  ["python_packages", "platform_info", "system_info", "sysctl_conf",
   "current_sysctl", "users", "groups"]

/-- A filesystem state with no package-manager binary, no
`/etc/os-release` and no `/etc/sysctl.conf`. -/
def fsNone : FsState :=
  { usr_bin_rpm := false, bin_rpm := false, usr_bin_dpkg := false,
    bin_dpkg := false, os_release := none, sysctlConf := none }

/-- A platform-identity value with empty strings everywhere. -/
def platEmpty : PlatformInfo :=
  { system := "", node := "", release := "", version := "", machine := "",
    processor := "", architecture := ("", ""), platform := "", uname := [],
    python_version := "", python_build := ("", ""), python_compiler := "" }

/-- A minimal host on which every query succeeds with an empty result and
package-manager detection yields `"Unknown"`. -/
def st0 : HostState :=
  { fs := fsNone, dpkgRc := 0, dpkgOut := "", rpmRc := 0, rpmOut := "",
    sysctlRun := .ok (0, ""), pyDists := [], plat := platEmpty,
    cpuinfoD := .ok [], cpuCountLog := none, cpuCountPhys := none,
    psLoadavg := .ok (0, 0, 0), gpus := .ok [], vmem := .ok [],
    swap := .ok [], partitions := .ok [],
    diskUsageOf := fun _ => .ok [], diskIo := .ok [], netIo := .ok [],
    netAddrs := .ok [], netStats := .ok [], connections := .ok [],
    psUsers := [], bootTime := 0, osHasGetloadavg := false,
    osLoadavg := .ok (0, 0, 0), procs := [], pwAll := [], grAll := [] }

/-- The snapshot `master` assembles on `st0`. -/
def st0snap : Snapshot :=
  { system_packages := none,
    python_packages := [],
    platform_info := platEmpty,
    system_info :=
      { cpu := { brand := .vStr ("N/A"), arch := .vStr ("N/A"),
                 bits := .vStr ("N/A"), count := none,
                 physical_count := none, model := .vStr ("N/A"),
                 family := .vStr ("N/A"), stepping := .vStr ("N/A"),
                 hz_advertised := .vStr ("N/A"), hz_actual := .vStr ("N/A"),
                 l2_cache_size := .vStr ("N/A"),
                 l3_cache_size := .vStr ("N/A"),
                 vendor_id := .vStr ("N/A"),
                 load_avg := { one_min_load := 0, five_min_load := 0,
                               fifteen_min_load := 0 } },
        gpu := [],
        memory := { virtual_memory := [], swap_memory := [] },
        disk := { disk_partitions := [], disk_usage := [],
                  disk_io_counters := [] },
        network := { net_io_counters := [], net_if_addrs := [],
                     net_if_stats := [], net_connections := [] },
        users := [], boot_time := 0, load_avg := none, processes := [] },
    sysctl_conf := [],
    current_sysctl := [],
    users := [],
    groups := [] }

/-- `st0` with a failing `psutil.getloadavg()` (and `cpuinfo` succeeding):
the host state used to exercise the unguarded load-average read. -/
def st1 : HostState :=
  { st0 with psLoadavg := .error .osError }

/-- When `gather_system_info` returns a dict, its `processes` entry is
exactly the fold of the per-process loop over the enumerated processes. -/
theorem gather_system_info_processes {st : HostState} {si : SystemInfo}
    (h : gather_system_info st = Except.ok si) :
    si.processes = procFold st.procs := by
  unfold gather_system_info at h
  repeat (split at h <;> try exact Except.noConfusion h)
  injection h with h
  subst h
  rfl

/-- When `master` assembles a dict: the `sysctl_conf` entry is the parse of
the config file alone, the `processes` entry is the per-process fold, and
the `system_packages` key is present exactly when detection yielded
`"debian"` or `"rpm"`. -/
theorem master_ok_fields {st : HostState} {doc : Snapshot}
    (h : master st = Except.ok doc) :
    doc.sysctl_conf = read_sysctl_conf st.fs.sysctlConf
    ∧ doc.system_info.processes = procFold st.procs
    ∧ (doc.system_packages.isSome = true ↔
        (check_linux_pkg_type st.fs = "debian"
          ∨ check_linux_pkg_type st.fs = "rpm")) := by
  unfold master at h
  split at h
  · exact Except.noConfusion h
  rename_i sp hsp
  split at h
  · exact Except.noConfusion h
  rename_i si hsi
  split at h
  · exact Except.noConfusion h
  rename_i cur hcur
  injection h with h
  subst h
  refine ⟨rfl, gather_system_info_processes hsi, ?_⟩
  by_cases hd : check_linux_pkg_type st.fs = "debian"
  · rw [if_pos hd] at hsp
    cases hg : gather_dpkg_packages st.dpkgRc st.dpkgOut with
    | error e => rw [hg] at hsp; exact Except.noConfusion hsp
    | ok l =>
      rw [hg] at hsp
      injection hsp with hsp
      subst hsp
      simp [hd]
  · rw [if_neg hd] at hsp
    by_cases hr : check_linux_pkg_type st.fs = "rpm"
    · rw [if_pos hr] at hsp
      cases hg : gather_rpm_packages st.rpmRc st.rpmOut with
      | error e => rw [hg] at hsp; exact Except.noConfusion hsp
      | ok l =>
        rw [hg] at hsp
        injection hsp with hsp
        subst hsp
        simp [hr]
    · rw [if_neg hr] at hsp
      injection hsp with hsp
      subst hsp
      simp [hd, hr]

/-- Overwriting an existing key: the lookup afterwards sees the new value. -/
theorem lookup_overwrite (k v : String) :
    ∀ m : AssocS, m.any (fun p => p.1 == k) = true →
      (m.map (fun p => if p.1 = k then (p.1, v) else p)).lookup k = some v := by
  intro m
  induction m with
  | nil => intro h; simp at h
  | cons p t ih =>
    intro h
    obtain ⟨a, b⟩ := p
    by_cases hk : a = k
    · subst hk
      rw [List.map_cons, if_pos rfl]
      simp [List.lookup]
    · have h' : t.any (fun p => p.1 == k) = true := by
        simpa [List.any_cons, hk] using h
      have hba : (k == a) = false := by
        simp only [beq_eq_false_iff_ne]
        exact fun he => hk he.symm
      rw [List.map_cons]
      simp only [if_neg hk]
      simpa [List.lookup, hba] using ih h'

/-- Appending a fresh key: the lookup afterwards finds it. -/
theorem lookup_append_fresh (k v : String) :
    ∀ m : AssocS, m.any (fun p => p.1 == k) = false →
      (m ++ [(k, v)]).lookup k = some v := by
  intro m
  induction m with
  | nil => simp [List.lookup]
  | cons p t ih =>
    intro h
    obtain ⟨a, b⟩ := p
    rw [List.any_cons] at h
    have h1 : ¬(a = k) := by
      intro he
      simp [he] at h
    have h2 : t.any (fun p => p.1 == k) = false := by
      simpa [h1] using h
    have hba : (k == a) = false := by
      simp only [beq_eq_false_iff_ne]
      exact fun he => h1 he.symm
    simpa [List.lookup, hba] using ih h2

/-- Last assignment wins: after `d[k] = v`, looking up `k` yields `v`. -/
theorem lookup_pyDictSet (m : AssocS) (k v : String) :
    (pyDictSet m k v).lookup k = some v := by
  unfold pyDictSet
  split_ifs with h
  · exact lookup_overwrite k v m h
  · have h' : m.any (fun p => p.1 == k) = false := by
      cases hb : m.any (fun p => p.1 == k) with
      | false => rfl
      | true => exact absurd hb h
    exact lookup_append_fresh k v m h'

/-- Appending through a fold is mapping: the loop-and-append idiom used by
all the record-normalizing collectors. -/
theorem foldl_append_eq_map {α β : Type} (f : α → β) :
    ∀ (cs : List α) (acc : List β),
      cs.foldl (fun a c => a ++ [f c]) acc = acc ++ cs.map f := by
  intro cs
  induction cs with
  | nil => simp
  | cons c t ih => intro acc; simp [ih]

/-- The per-process loop keeps exactly the successfully read processes, in
order. -/
theorem procFold_eq_filterMap (l : List (Except ProcErr ProcInfo)) :
    procFold l = l.filterMap Except.toOption := by
  have haux : ∀ (l' : List (Except ProcErr ProcInfo)) (acc : List ProcInfo),
      l'.foldl
        (fun acc r => match r with | .ok i => acc ++ [i] | .error _ => acc)
        acc = acc ++ l'.filterMap Except.toOption := by
    intro l'
    induction l' with
    | nil => simp
    | cons r t ih =>
      intro acc
      cases r with
      | ok i => simp [ih, Except.toOption]
      | error e => simp [ih, Except.toOption]
  simpa using haux l []

/-- A well-formed `dpkg-query` output line: non-blank with exactly the
three expected whitespace-separated fields. -/
def wf3 (l : String) : Prop :=
  ¬(l = "") ∧ (pyWords (pyStrip l)).length = 3

instance (l : String) : Decidable (wf3 l) := by
  unfold wf3; infer_instance

/-- The record `gather_dpkg_packages` builds from one well-formed line. -/
def parseRec (l : String) : DpkgRec :=
  match pyWords (pyStrip l) with
  | f0 :: f1 :: f2 :: _ => ⟨f0, f1, f2⟩
  | _ => ⟨"", "", ""⟩

/-- A well-formed line has exactly three parsed fields. -/
theorem wf3_shape {l : String} (h : wf3 l) :
    ∃ f0 f1 f2, pyWords (pyStrip l) = [f0, f1, f2] := by
  obtain ⟨-, h2⟩ := h
  rcases hfs : pyWords (pyStrip l) with _ | ⟨f0, _ | ⟨f1, _ | ⟨f2, _ | ⟨f3, rest⟩⟩⟩⟩ <;>
    rw [hfs] at h2
  · exact absurd h2 (by decide)
  · simp only [List.length_cons, List.length_nil] at h2; omega
  · simp only [List.length_cons, List.length_nil] at h2; omega
  · exact ⟨f0, f1, f2, rfl⟩
  · simp only [List.length_cons] at h2; omega

/-- One iteration of the dpkg loop on a non-blank line: `fields` is
reassigned from the line and its record is appended. -/
theorem dpkgStep_cons_filled {l : String} (hne : ¬(l = ""))
    {f0 f1 f2 : String} (hfs : pyWords (pyStrip l) = [f0, f1, f2])
    (fo : Option (List String)) (acc : List DpkgRec) (lines : List String) :
    dpkgStep fo acc (l :: lines)
      = dpkgStep (some [f0, f1, f2]) (acc ++ [⟨f0, f1, f2⟩]) lines := by
  have hne' : (l == "") = false := by simpa using hne
  conv_lhs => unfold dpkgStep
  simp [hne', hfs]

/-- One iteration of the dpkg loop on a blank line with `fields` already
bound: the record construction runs anyway and re-appends the previous
line's record. -/
theorem dpkgStep_cons_blank (f0 f1 f2 : String) (rest : List String)
    (acc : List DpkgRec) (lines : List String) :
    dpkgStep (some (f0 :: f1 :: f2 :: rest)) acc ("" :: lines)
      = dpkgStep (some (f0 :: f1 :: f2 :: rest)) (acc ++ [⟨f0, f1, f2⟩])
          lines := by
  conv_lhs => unfold dpkgStep
  simp

/-- Running the dpkg loop over well-formed lines followed by the empty
string produced by a trailing newline: every line yields its record, and
the final blank line re-emits the record of the last line. -/
theorem dpkgStep_wf_run :
    ∀ (ls : List String) (l : String) (fo : Option (List String))
      (acc : List DpkgRec), wf3 l → (∀ x ∈ ls, wf3 x) →
      dpkgStep fo acc ((l :: ls) ++ [""])
        = Except.ok (acc ++ (l :: ls).map parseRec
            ++ [parseRec ((l :: ls).getLastD "")]) := by
  intro ls
  induction ls with
  | nil =>
    intro l fo acc hl _
    obtain ⟨f0, f1, f2, hfs⟩ := wf3_shape hl
    rw [List.cons_append, List.nil_append,
        dpkgStep_cons_filled hl.1 hfs fo acc [""]]
    simp [dpkgStep, parseRec, hfs]
  | cons x t ih =>
    intro l fo acc hl hls
    obtain ⟨f0, f1, f2, hfs⟩ := wf3_shape hl
    have hx : wf3 x := hls x (by simp)
    have ht : ∀ y ∈ t, wf3 y := fun y hy => hls y (by simp [hy])
    rw [List.cons_append,
        dpkgStep_cons_filled hl.1 hfs fo acc ((x :: t) ++ [""])]
    have hrec := ih x (some [f0, f1, f2])
      (acc ++ [{ Package := f0, Version := f1, Architecture := f2 }]) hx ht
    rw [hrec]
    simp [parseRec, hfs, List.getLastD_cons]

/-- Claim C1, counterexample: on a host whose package manager is not
detected (no rpm or dpkg binary, no os-release file), `master` assembles
successfully but its key set lacks `system_packages`, so the snapshot does
not contain every declared top-level field. -/
theorem C1_counterexample :
    (master st0).map snapshotKeys = Except.ok baseKeys
    ∧ ¬("system_packages" ∈ baseKeys) :=
  ⟨rfl, by decide⟩

/-- Claim C1 (amended): whenever `master` assembles a snapshot, the keys
`python_packages`, `platform_info`, `system_info`, `sysctl_conf`,
`current_sysctl`, `users` and `groups` are all present; `system_packages`
is present exactly when package-manager detection yielded `"debian"` or
`"rpm"`, and is omitted otherwise. -/
theorem C1_amended_keys :
    ∀ (st : HostState) (doc : Snapshot), master st = Except.ok doc →
      snapshotKeys doc =
        (if check_linux_pkg_type st.fs = "debian"
            ∨ check_linux_pkg_type st.fs = "rpm"
         then "system_packages" :: baseKeys else baseKeys) := by
  intro st doc h
  have h3 := (master_ok_fields h).2.2
  by_cases hc : check_linux_pkg_type st.fs = "debian"
      ∨ check_linux_pkg_type st.fs = "rpm"
  · rw [if_pos hc]
    have hs : doc.system_packages.isSome = true := h3.mpr hc
    cases hsp : doc.system_packages with
    | none => rw [hsp] at hs; simp at hs
    | some p => simp [snapshotKeys, baseKeys, hsp]
  · rw [if_neg hc]
    have hs : ¬(doc.system_packages.isSome = true) := fun hh => hc (h3.mp hh)
    cases hsp : doc.system_packages with
    | none => simp [snapshotKeys, baseKeys, hsp]
    | some p => rw [hsp] at hs; simp at hs

/-- Claim C1 witness: on `st0` the amended key law evaluates to the base
key list (package type `"Unknown"`, so `system_packages` is absent). -/
theorem C1_witness : snapshotKeys st0snap = baseKeys := by
  have h := C1_amended_keys st0 st0snap rfl
  rw [if_neg (by decide)] at h
  exact h

/-- Claim C2, counterexample: a failing `psutil.getloadavg()` call (every
other query succeeding) aborts the whole assembly — `master` propagates
the exception and produces no snapshot at all, instead of degrading the
one field and keeping the other collectors' output. -/
theorem C2_counterexample : master st1 = Except.error PyErr.osError :=
  rfl

/-- Claim C2 (amended): the assembly is not failure-isolated.  Whenever
the load-average read fails (with `cpuinfo` succeeding and package
detection yielding `"Unknown"`, so that no earlier step fails first), the
exception propagates out of `master` and no snapshot is produced. -/
theorem C2_abort_propagation :
    ∀ (st : HostState) (e : PyErr) (d : AsDict),
      check_linux_pkg_type st.fs = "Unknown" →
      st.cpuinfoD = Except.ok d →
      st.psLoadavg = Except.error e →
      master st = Except.error e := by
  intro st e d hck hci hla
  have hcpu : get_cpu_info st = Except.error e := by
    unfold get_cpu_info get_load_avg
    rw [hci, hla]
  have hsys : gather_system_info st = Except.error e := by
    unfold gather_system_info
    rw [hcpu]
  simp [master, hck, hsys]

/-- Claim C2 witness: the amended abort law applied to the concrete host
`st1`. -/
theorem C2_witness : master st1 = Except.error PyErr.osError :=
  C2_abort_propagation st1 PyErr.osError [] rfl rfl rfl

/-- Claim C3: the package-listing operations do raise on parse trouble.
`gather_rpm_packages` raises TypeError on any non-empty line (list indexed
with a string) — it can never return a non-empty result — and
`gather_dpkg_packages` raises IndexError on a line with fewer than three
fields; only a non-zero tool exit degrades to the empty list. -/
theorem C3_listing_raises :
    gather_rpm_packages 0 ("bash 5.1-1\n") = Except.error PyErr.typeError
    ∧ gather_rpm_packages 0 ("bash\n") = Except.error PyErr.valueError
    ∧ gather_dpkg_packages 0 ("foo bar\n") = Except.error PyErr.indexError
    ∧ gather_rpm_packages 1 ("") = Except.ok []
    ∧ gather_dpkg_packages 1 ("") = Except.ok [] :=
  ⟨rfl, rfl, rfl, rfl, rfl⟩

/-- Claim C4: the `processes` entry is exactly the fold that skips every
process whose read raised NoSuchProcess / AccessDenied / ZombieProcess: a
failing process contributes nothing (the fold over the list with the
failure removed is identical), and every successfully read process still
appears. -/
theorem C4_process_skip :
    (∀ (st : HostState) (si : SystemInfo),
        gather_system_info st = Except.ok si →
        si.processes = procFold st.procs)
    ∧ (∀ (pre post : List (Except ProcErr ProcInfo)) (e : ProcErr),
        procFold (pre ++ Except.error e :: post) = procFold (pre ++ post))
    ∧ (∀ (procs : List (Except ProcErr ProcInfo)) (i : ProcInfo),
        Except.ok i ∈ procs → i ∈ procFold procs) := by
  refine ⟨fun st si h => gather_system_info_processes h, ?_, ?_⟩
  · intro pre post e
    simp [procFold_eq_filterMap, Except.toOption]
  · intro procs i h
    rw [procFold_eq_filterMap]
    exact List.mem_filterMap.mpr ⟨Except.ok i, h, rfl⟩

/-- A concrete process record for the C4 witness. -/
def pInfo0 : ProcInfo :=
  { pid := 1, name := "init", username := "root", status := "sleeping",
    cpu_percent := 0, cpu_times := none, memory_info := none,
    io_counters := none, num_threads := 1, create_time := 0, exe := none,
    cmdline := [] }

/-- Claim C4 witness: on concrete inputs, a denied process drops out of
the fold without affecting the accessible one, which still appears; and
the `processes` entry of the snapshot assembled on `st0` is the fold. -/
theorem C4_witness :
    procFold [Except.ok pInfo0, Except.error ProcErr.accessDenied]
        = procFold [Except.ok pInfo0]
    ∧ pInfo0 ∈ procFold [Except.ok pInfo0, Except.error ProcErr.accessDenied]
    ∧ st0snap.system_info.processes = procFold st0.procs :=
  ⟨C4_process_skip.2.1 [Except.ok pInfo0] [] ProcErr.accessDenied,
   C4_process_skip.2.2 [Except.ok pInfo0, Except.error ProcErr.accessDenied]
     pInfo0 (by simp),
   C4_process_skip.1 st0 st0snap.system_info rfl⟩

/-- Claim C5: the sysctl config parser maps the two specified inputs to
exactly the specified dicts; on every input a line that strips to blank,
starts with the comment marker, or lacks `=` leaves the dict unchanged;
and assignment overwrites, so the last assignment of a key wins. -/
theorem C5_sysctl_parse :
    read_sysctl_conf (some ("a=1\n# comment\nb = 2 \n\nbad_line\n"))
      = [("a", "1"), ("b", "2")]
    ∧ read_sysctl_conf (some ("x=1\nx=2\n")) = [("x", "2")]
    ∧ (∀ (m : AssocS) (rawLine : String),
        pyStrip rawLine = ""
          ∨ pyStartsWith ("#") (pyStrip rawLine) = true
          ∨ pyContainsChar (pyStrip rawLine) '=' = false →
        sysctlLineStep m rawLine = m)
    ∧ (∀ (m : AssocS) (k v : String),
        (pyDictSet m k v).lookup k = some v) := by
  refine ⟨rfl, rfl, ?_, lookup_pyDictSet⟩
  intro m rawLine h
  rcases h with h | h | h <;> simp [sysctlLineStep, h]

/-- Claim C5 witness: the skip law on a concrete comment line and the
last-wins law on a concrete duplicate key. -/
theorem C5_witness :
    sysctlLineStep [("a", "1")] ("# note") = [("a", "1")]
    ∧ (pyDictSet [("x", "1")] ("x") ("2")).lookup ("x") = some ("2") :=
  ⟨C5_sysctl_parse.2.2.1 [("a", "1")] ("# note")
     (Or.inr (Or.inl (by decide))),
   C5_sysctl_parse.2.2.2 [("x", "1")] ("x") ("2")⟩

/-- Claim C6: the single Debian line `curl 7.81.0-1 amd64` parses to one
record with the three fields populated as specified. -/
theorem C6_dpkg_line :
    gather_dpkg_packages 0 ("curl 7.81.0-1 amd64")
      = Except.ok [{ Package := "curl", Version := "7.81.0-1",
                     Architecture := "amd64" }] :=
  rfl

/-- Claim C7: a non-zero exit of the live-tunables tool yields the empty
`current_sysctl` dict, and the `sysctl_conf` entry of any assembled
snapshot is the parse of the config file alone, so it is unaffected by the
tool's outcome.  (The source passes no timeout to the invocation, so a
timeout outcome does not exist in its outcome space.) -/
theorem C7_current_sysctl :
    ∀ (rc : Int) (o : String) (st : HostState) (doc : Snapshot),
      rc ≠ 0 →
      get_current_sysctl_values (Except.ok (rc, o)) = Except.ok []
      ∧ (master st = Except.ok doc →
          doc.sysctl_conf = read_sysctl_conf st.fs.sysctlConf) := by
  intro rc o st doc hrc
  constructor
  · simp [get_current_sysctl_values, hrc]
  · exact fun h => (master_ok_fields h).1

/-- Claim C7 witness: exit code 1 with non-empty output yields the empty
dict, and the snapshot assembled on `st0` carries the file parse. -/
theorem C7_witness :
    get_current_sysctl_values (Except.ok (1, "k = v")) = Except.ok []
    ∧ st0snap.sysctl_conf = read_sysctl_conf st0.fs.sysctlConf := by
  have h := C7_current_sysctl 1 ("k = v") st0 st0snap (by decide)
  exact ⟨h.1, h.2 rfl⟩

/-- Claim C8, counterexample: on a host with no package-manager binary and
no os-release file, detection returns the literal `"Unknown"` (capital U),
which is none of the claimed values `rpm`/`debian`/`unknown`. -/
theorem C8_counterexample :
    check_linux_pkg_type fsNone = "Unknown"
    ∧ ¬("Unknown" = "rpm" ∨ "Unknown" = "debian"
        ∨ "Unknown" = "unknown") :=
  ⟨rfl, by decide⟩

/-- Claim C8 (amended): detection is a pure function of the probed host
state returning exactly one of `"rpm"`, `"debian"`, `"Unknown"` (capital
U, not the literal `unknown`), in the probe order: rpm binary present →
`"rpm"`; else dpkg binary present → `"debian"`; else a debian/ubuntu
substring in the lower-cased os-release contents → `"debian"`, else a
centos/fedora/rhel substring → `"rpm"`, else → `"Unknown"`; and `"Unknown"`
when the file is absent too. -/
theorem C8_amended_detection :
    ∀ fs : FsState,
      (check_linux_pkg_type fs = "rpm" ∨ check_linux_pkg_type fs = "debian"
        ∨ check_linux_pkg_type fs = "Unknown")
      ∧ ((fs.usr_bin_rpm || fs.bin_rpm) = true →
          check_linux_pkg_type fs = "rpm")
      ∧ ((fs.usr_bin_rpm || fs.bin_rpm) = false →
          (fs.usr_bin_dpkg || fs.bin_dpkg) = true →
          check_linux_pkg_type fs = "debian")
      ∧ (∀ c : String,
          (fs.usr_bin_rpm || fs.bin_rpm) = false →
          (fs.usr_bin_dpkg || fs.bin_dpkg) = false →
          fs.os_release = some c →
          (strContains (pyLower c) ("debian")
            || strContains (pyLower c) ("ubuntu")) = true →
          check_linux_pkg_type fs = "debian")
      ∧ (∀ c : String,
          (fs.usr_bin_rpm || fs.bin_rpm) = false →
          (fs.usr_bin_dpkg || fs.bin_dpkg) = false →
          fs.os_release = some c →
          (strContains (pyLower c) ("debian")
            || strContains (pyLower c) ("ubuntu")) = false →
          (strContains (pyLower c) ("centos")
            || strContains (pyLower c) ("fedora")
            || strContains (pyLower c) ("rhel")) = true →
          check_linux_pkg_type fs = "rpm")
      ∧ (∀ c : String,
          (fs.usr_bin_rpm || fs.bin_rpm) = false →
          (fs.usr_bin_dpkg || fs.bin_dpkg) = false →
          fs.os_release = some c →
          (strContains (pyLower c) ("debian")
            || strContains (pyLower c) ("ubuntu")) = false →
          (strContains (pyLower c) ("centos")
            || strContains (pyLower c) ("fedora")
            || strContains (pyLower c) ("rhel")) = false →
          check_linux_pkg_type fs = "Unknown")
      ∧ ((fs.usr_bin_rpm || fs.bin_rpm) = false →
          (fs.usr_bin_dpkg || fs.bin_dpkg) = false →
          fs.os_release = none →
          check_linux_pkg_type fs = "Unknown") := by
  intro fs
  refine ⟨?_, ?_, ?_, ?_, ?_, ?_, ?_⟩
  · unfold check_linux_pkg_type
    by_cases h1 : (fs.usr_bin_rpm || fs.bin_rpm) = true
    · simp [h1]
    · rw [if_neg h1]
      by_cases h2 : (fs.usr_bin_dpkg || fs.bin_dpkg) = true
      · simp [h2]
      · rw [if_neg h2]
        cases h3 : fs.os_release with
        | none => simp [osReleaseFamily]
        | some c => simp only [osReleaseFamily]; split_ifs <;> simp
  · intro h1
    simp [check_linux_pkg_type, h1]
  · intro h1 h2
    simp [check_linux_pkg_type, h1, h2]
  · intro c h1 h2 h3 h4
    simp [check_linux_pkg_type, osReleaseFamily, h1, h2, h3, h4]
  · intro c h1 h2 h3 h4 h5
    simp [check_linux_pkg_type, osReleaseFamily, h1, h2, h3, h4, h5]
  · intro c h1 h2 h3 h4 h5
    simp [check_linux_pkg_type, osReleaseFamily, h1, h2, h3, h4, h5]
  · intro h1 h2 h3
    simp [check_linux_pkg_type, osReleaseFamily, h1, h2, h3]

/-- A filesystem state where the rpm binary is present. -/
def fsRpm : FsState :=
  { usr_bin_rpm := true, bin_rpm := false, usr_bin_dpkg := false,
    bin_dpkg := false, os_release := none, sysctlConf := none }

/-- Claim C8 witness: with the rpm binary present, the amended detection
law yields `"rpm"`. -/
theorem C8_witness : check_linux_pkg_type fsRpm = "rpm" :=
  (C8_amended_detection fsRpm).2.1 rfl

/-- Claim C9: when a connection has no remote endpoint both remote fields
of the produced record are explicitly `none`; when the remote endpoint is
present both are populated from it; the local endpoint is always split
into its address and port fields; and the connection collector normalizes
every raw connection this way. -/
theorem C9_connection_fields :
    (∀ c : RawConn,
      (c.raddr = none →
        (connStep c).remote_ip = none ∧ (connStep c).remote_port = none)
      ∧ (∀ (a : String) (p : Int), c.raddr = some (a, p) →
          (connStep c).remote_ip = some a
            ∧ (connStep c).remote_port = some p)
      ∧ (connStep c).local_ip = c.laddr.1
      ∧ (connStep c).local_port = c.laddr.2)
    ∧ (∀ cs : List RawConn,
        get_net_if_connections (Except.ok cs)
          = Except.ok (cs.map connStep)) := by
  constructor
  · intro c
    refine ⟨?_, ?_, rfl, rfl⟩
    · intro h
      simp [connStep, h]
    · intro a p h
      simp [connStep, h]
  · intro cs
    simp [get_net_if_connections, foldl_append_eq_map]

/-- A listening raw connection: no remote endpoint. -/
def conn0 : RawConn :=
  { fd := 3, family := 2, sockType := 1, laddr := ("0.0.0.0", 80),
    raddr := none, status := "LISTEN", pid := none }

/-- An established raw connection with a remote endpoint. -/
def conn1 : RawConn :=
  { fd := 4, family := 2, sockType := 1, laddr := ("10.0.0.2", 51000),
    raddr := some ("1.2.3.4", 443), status := "ESTABLISHED",
    pid := some 1234 }

/-- Claim C9 witness: the field laws evaluated on one connection of each
kind, plus the collector on the two-element list. -/
theorem C9_witness :
    ((connStep conn0).remote_ip = none
      ∧ (connStep conn0).remote_port = none)
    ∧ ((connStep conn1).remote_ip = some ("1.2.3.4")
      ∧ (connStep conn1).remote_port = some 443)
    ∧ get_net_if_connections (Except.ok [conn0, conn1])
        = Except.ok ([conn0, conn1].map connStep) :=
  ⟨(C9_connection_fields.1 conn0).1 rfl,
   (C9_connection_fields.1 conn1).2.1 ("1.2.3.4") 443 rfl,
   C9_connection_fields.2 [conn0, conn1]⟩

/-- Claim C10: for tool output of N ≥ 1 well-formed three-field lines
followed by the blank string a trailing newline produces under `split`,
the Debian listing returns N + 1 records, the last one a duplicate built
from the preceding line's fields. -/
theorem C10_blank_line_duplicate :
    ∀ (out l : String) (ls : List String),
      pySplit '\n' out = (l :: ls) ++ [""] →
      wf3 l → (∀ x ∈ ls, wf3 x) →
      gather_dpkg_packages 0 out
        = Except.ok ((l :: ls).map parseRec
            ++ [parseRec ((l :: ls).getLastD "")])
      ∧ ((l :: ls).map parseRec
          ++ [parseRec ((l :: ls).getLastD "")]).length
        = (l :: ls).length + 1 := by
  intro out l ls hsplit hl hls
  constructor
  · unfold gather_dpkg_packages
    rw [if_pos rfl, hsplit]
    exact dpkgStep_wf_run ls l none [] hl hls
  · simp

/-- Claim C10 witness: one well-formed line plus trailing newline yields
two records, the second a duplicate of the first. -/
theorem C10_witness :
    gather_dpkg_packages 0 ("curl 7.81.0-1 amd64\n")
      = Except.ok
          [{ Package := "curl", Version := "7.81.0-1",
             Architecture := "amd64" },
           { Package := "curl", Version := "7.81.0-1",
             Architecture := "amd64" }] := by
  have h := (C10_blank_line_duplicate ("curl 7.81.0-1 amd64\n")
    ("curl 7.81.0-1 amd64") [] rfl (by decide) (by simp)).1
  rw [h]
  rfl

end Hostinfo
